import Mathlib

/-!
Verification of the SocialQuest repository: a shallow embedding of the
gamification and session logic of the Express backend (streak update at
login, token refresh, registration, pagination) and of the integrated mock
API server in App.tsx (registration, level-up check, like toggling),
together with theorems settling the specification claims.
-/

namespace SocialQuest

/-! ## Streak / login transition (backend, app.post /auth/login)

A JavaScript Date value is modelled by its epoch milliseconds `ms` together
with `day`, the equivalence class of its calendar day: two Date values have
the same `day` exactly when `toDateString` returns the same string for both.
-/

structure Timestamp where
  ms : Int
  day : Int
deriving DecidableEq

structure StreakState where
  lastActive : Timestamp
  streak : Nat
deriving DecidableEq

def msPerHour : Int := 60 * 60 * 1000

/-- Streak block of the login handler:
`isNewDay = now.toDateString() !== lastActive.toDateString()`; if new day,
`isConsecutive = (now - lastActive) < 24*60*60*1000*2`, and
`streak = isConsecutive ? streak + 1 : 1; lastActive = now`. -/
def loginStreakUpdate (s : StreakState) (now : Timestamp) : StreakState :=
  if now.day ≠ s.lastActive.day then
    { lastActive := now,
      streak :=
        if now.ms - s.lastActive.ms < 24 * 60 * 60 * 1000 * 2 then s.streak + 1
        else 1 }
  else s

/-! ## Level-up check (App.tsx, /level-up handler)

The mock-server user record, restricted to the fields the handler touches.
The random index `Math.floor(Math.random() * rewardItems.length)` is passed
in as a parameter `r : Fin 4`.
-/

structure MockUser where
  level : Nat
  xp : Nat
  coins : Nat
  inventory : List String
deriving DecidableEq

def rewardItems : List String :=
  ["Health Potion", "Mana Potion", "Golden Key", "Magic Scroll"]

structure LevelUpResponse where
  leveledUp : Bool
  newLevel : Option Nat
  rewardItem : Option String
deriving DecidableEq

/-- The /level-up handler: `xpNeeded = level * 100`; if `xp >= xpNeeded`
then `level += 1; xp -= xpNeeded; coins += 100; inventory.push(rewardItem)`
and the response reports the new level and the item; otherwise no mutation
and `leveledUp: false`. -/
def levelUpCheck (u : MockUser) (r : Fin 4) : MockUser × LevelUpResponse :=
  if u.level * 100 ≤ u.xp then
    ({ level := u.level + 1,
       xp := u.xp - u.level * 100,
       coins := u.coins + 100,
       inventory := u.inventory ++ [rewardItems.getD r.1 ""] },
     { leveledUp := true,
       newLevel := some (u.level + 1),
       rewardItem := some (rewardItems.getD r.1 "") })
  else
    (u, { leveledUp := false, newLevel := none, rewardItem := none })

/-- C1: a login on the same calendar day leaves the state unchanged; on a
new calendar day, a gap strictly below 48 hours increments the streak and a
gap of at least 48 hours resets it to 1, and in both new-day cases
lastActive becomes now; in particular a login exactly 25 hours later on a
different calendar day increments the streak by exactly 1. -/
theorem C1_streak_login (s : StreakState) (now : Timestamp) :
    (now.day = s.lastActive.day → loginStreakUpdate s now = s) ∧
    (now.day ≠ s.lastActive.day → now.ms - s.lastActive.ms < 48 * msPerHour →
      (loginStreakUpdate s now).streak = s.streak + 1 ∧
      (loginStreakUpdate s now).lastActive = now) ∧
    (now.day ≠ s.lastActive.day → ¬ (now.ms - s.lastActive.ms < 48 * msPerHour) →
      (loginStreakUpdate s now).streak = 1 ∧
      (loginStreakUpdate s now).lastActive = now) ∧
    (now.day ≠ s.lastActive.day → now.ms - s.lastActive.ms = 25 * msPerHour →
      (loginStreakUpdate s now).streak = s.streak + 1) := by
  refine ⟨?_, ?_, ?_, ?_⟩
  · intro h
    simp [loginStreakUpdate, h]
  · intro hday hgap
    have hg : now.ms - s.lastActive.ms < 24 * 60 * 60 * 1000 * 2 := by
      norm_num [msPerHour] at hgap ⊢
      omega
    unfold loginStreakUpdate
    rw [if_pos hday]
    exact ⟨by rw [if_pos hg], rfl⟩
  · intro hday hgap
    have hg : ¬ (now.ms - s.lastActive.ms < 24 * 60 * 60 * 1000 * 2) := by
      norm_num [msPerHour] at hgap ⊢
      omega
    unfold loginStreakUpdate
    rw [if_pos hday]
    exact ⟨by rw [if_neg hg], rfl⟩
  · intro hday hgap
    have hg : now.ms - s.lastActive.ms < 24 * 60 * 60 * 1000 * 2 := by
      rw [hgap]
      norm_num [msPerHour]
    unfold loginStreakUpdate
    rw [if_pos hday]
    exact (by rw [if_pos hg])

/-- Witness for C1 at a concrete state: streak 3, login 25 hours later on
the next calendar day, yielding streak 4. -/
theorem C1_streak_login_witness :
    (loginStreakUpdate ⟨⟨0, 0⟩, 3⟩ ⟨25 * msPerHour, 1⟩).streak = 3 + 1 :=
  (C1_streak_login ⟨⟨0, 0⟩, 3⟩ ⟨25 * msPerHour, 1⟩).2.2.2 (by decide) (by decide)

/-- C2: the level-up check mutates the user exactly when `xp ≥ level*100`;
on a level-up exactly one threshold is subtracted, level rises by one,
coins rise by 100, exactly one item from the fixed reward set is appended,
and the response carries the new level and the item; below the threshold
nothing changes; in particular xp=150 at level 1 gives level 2, xp 50,
coins+100, inventory one longer, and xp=99 at level 1 changes nothing. -/
theorem C2_levelUp_check (u : MockUser) (r : Fin 4) :
    ((levelUpCheck u r).1 ≠ u ↔ u.level * 100 ≤ u.xp) ∧
    (u.level * 100 ≤ u.xp →
      (levelUpCheck u r).1.level = u.level + 1 ∧
      (levelUpCheck u r).1.xp = u.xp - u.level * 100 ∧
      (levelUpCheck u r).1.coins = u.coins + 100 ∧
      (levelUpCheck u r).1.inventory = u.inventory ++ [rewardItems.getD r.1 ""] ∧
      rewardItems.getD r.1 "" ∈ rewardItems ∧
      (levelUpCheck u r).2 =
        ⟨true, some (u.level + 1), some (rewardItems.getD r.1 "")⟩) ∧
    (u.xp < u.level * 100 →
      (levelUpCheck u r).1 = u ∧ (levelUpCheck u r).2 = ⟨false, none, none⟩) ∧
    (u.level = 1 → u.xp = 150 →
      (levelUpCheck u r).1.level = 2 ∧ (levelUpCheck u r).1.xp = 50 ∧
      (levelUpCheck u r).1.coins = u.coins + 100 ∧
      (levelUpCheck u r).1.inventory.length = u.inventory.length + 1) ∧
    (u.level = 1 → u.xp = 99 → (levelUpCheck u r).1 = u) := by
  have hmem : rewardItems.getD r.1 "" ∈ rewardItems := by
    fin_cases r <;> simp [rewardItems]
  refine ⟨?_, ?_, ?_, ?_, ?_⟩
  · constructor
    · intro hne
      by_contra hlt
      push_neg at hlt
      have hn : ¬ u.level * 100 ≤ u.xp := by omega
      exact hne (by simp [levelUpCheck, if_neg hn])
    · intro hle heq
      have hl : u.level + 1 = u.level := by
        simpa [levelUpCheck, if_pos hle] using congrArg MockUser.level heq
      omega
  · intro hle
    refine ⟨?_, ?_, ?_, ?_, hmem, ?_⟩ <;> simp [levelUpCheck, if_pos hle]
  · intro hlt
    have hn : ¬ u.level * 100 ≤ u.xp := by omega
    simp [levelUpCheck, if_neg hn]
  · intro hl hx
    have hle : u.level * 100 ≤ u.xp := by omega
    simp [levelUpCheck, if_pos hle, hl, hx]
  · intro hl hx
    have hn : ¬ u.level * 100 ≤ u.xp := by omega
    simp [levelUpCheck, if_neg hn]

/-- Witness for C2: a concrete user at level 1 with 150 xp levels up to
level 2 with 50 xp left. -/
theorem C2_levelUp_check_witness :
    (levelUpCheck ⟨1, 150, 7, []⟩ 0).1.level = 2 ∧
    (levelUpCheck ⟨1, 150, 7, []⟩ 0).1.xp = 50 :=
  ⟨((C2_levelUp_check ⟨1, 150, 7, []⟩ 0).2.2.2.1 rfl rfl).1,
   ((C2_levelUp_check ⟨1, 150, 7, []⟩ 0).2.2.2.1 rfl rfl).2.1⟩

/-- C3 counterexample: at level 1 with 350 xp, the check leaves 250 xp at
level 2, and 250 is not below the new threshold 200 — overflow xp is
carried forward, not discarded, so the claimed invariant fails. -/
theorem C3_counterexample :
    ¬ ((levelUpCheck ⟨1, 350, 0, []⟩ 0).1.xp <
       (levelUpCheck ⟨1, 350, 0, []⟩ 0).1.level * 100) := by
  decide

/-- C3 amended: after a level-up check, xp < level*100 holds for the
post-check level provided the pre-check xp was below (2*level+1)*100, the
sum of the old and new thresholds; moreover exactly one threshold is
subtracted, so excess xp above the threshold is carried forward rather than
discarded. -/
theorem C3_xp_bound_after_check (u : MockUser) (r : Fin 4)
    (h : u.xp < (2 * u.level + 1) * 100) :
    (levelUpCheck u r).1.xp < (levelUpCheck u r).1.level * 100 ∧
    (u.level * 100 ≤ u.xp →
      (levelUpCheck u r).1.xp = u.xp - u.level * 100) := by
  by_cases hle : u.level * 100 ≤ u.xp
  · simp only [levelUpCheck, if_pos hle]
    refine ⟨by omega, ?_⟩
    intro hc
    trivial
  · simp only [levelUpCheck, if_neg hle]
    refine ⟨by omega, ?_⟩
    intro hc
    exact absurd hc hle

/-- Witness for the amended C3: level 1 with 250 xp stays below the new
threshold after the check. -/
theorem C3_xp_bound_after_check_witness :
    (levelUpCheck ⟨1, 250, 0, []⟩ 0).1.xp <
      (levelUpCheck ⟨1, 250, 0, []⟩ 0).1.level * 100 :=
  (C3_xp_bound_after_check ⟨1, 250, 0, []⟩ 0 (by decide)).1

/-! ## Like toggling (App.tsx, /posts/:postId/like handler)

The handler computes `likeIndex = post.likes.indexOf(userId)`; when the
index is -1 it pushes the userId and grants the liking user 5 xp, otherwise
it calls `likes.splice(likeIndex, 1)` and leaves xp alone. JavaScript
indexOf returns -1 exactly when Lean List.indexOf returns the length. -/

def toggleLike (likes : List String) (xp : Nat) (uid : String) :
    List String × Nat :=
  if likes.indexOf uid = likes.length then (likes ++ [uid], xp + 5)
  else (likes.eraseIdx (likes.indexOf uid), xp)

/-- Removing the entry at the first index of `u` is erasing the first
occurrence of `u`, which is what `splice(indexOf(u), 1)` does. -/
lemma eraseIdx_indexOf (l : List String) (u : String) :
    l.eraseIdx (l.indexOf u) = l.erase u := by
  induction l with
  | nil => rfl
  | cons a t ih =>
    by_cases h : a = u
    · subst h
      rw [List.indexOf_cons_self, List.erase_cons_head]
      rfl
    · rw [List.indexOf_cons_ne _ h, List.erase_cons_tail (by simpa using h)]
      simp [List.eraseIdx_cons_succ, ih]

/-- When the user is absent, the toggle pushes the user and grants 5 xp. -/
lemma toggleLike_of_not_mem (likes : List String) (xp : Nat) (uid : String)
    (h : uid ∉ likes) : toggleLike likes xp uid = (likes ++ [uid], xp + 5) := by
  simp [toggleLike, List.indexOf_of_not_mem h]

/-- When the user is present, the toggle erases the first occurrence and
leaves xp alone. -/
lemma toggleLike_of_mem (likes : List String) (xp : Nat) (uid : String)
    (h : uid ∈ likes) : toggleLike likes xp uid = (likes.erase uid, xp) := by
  have hlt : likes.indexOf uid < likes.length := List.indexOf_lt_length.mpr h
  have hne : ¬ likes.indexOf uid = likes.length := by omega
  simp [toggleLike, hne, eraseIdx_indexOf]

/-- C4: on a duplicate-free likes list, toggling adds the user and grants
5 xp exactly when the user is absent, removes the user without changing xp
when present, and two consecutive toggles by the same user restore the
membership and the like count while the liker ends with 5 more xp. -/
theorem C4_toggleLike_toggle (likes : List String) (xp : Nat) (uid : String)
    (hnd : likes.Nodup) :
    (uid ∉ likes →
      toggleLike likes xp uid = (likes ++ [uid], xp + 5) ∧
      uid ∈ (toggleLike likes xp uid).1) ∧
    (uid ∈ likes →
      (toggleLike likes xp uid).2 = xp ∧
      uid ∉ (toggleLike likes xp uid).1 ∧
      (toggleLike likes xp uid).1.length + 1 = likes.length) ∧
    (∀ v,
      v ∈ (toggleLike (toggleLike likes xp uid).1
            (toggleLike likes xp uid).2 uid).1 ↔ v ∈ likes) ∧
    (toggleLike (toggleLike likes xp uid).1
        (toggleLike likes xp uid).2 uid).1.length = likes.length ∧
    (toggleLike (toggleLike likes xp uid).1
        (toggleLike likes xp uid).2 uid).2 = xp + 5 := by
  by_cases hm : uid ∈ likes
  · have h1 := toggleLike_of_mem likes xp uid hm
    have hnotin : uid ∉ likes.erase uid := by
      intro hc
      exact ((hnd.mem_erase_iff.mp hc).1) rfl
    have h2 := toggleLike_of_not_mem (likes.erase uid) xp uid hnotin
    have hlen : (likes.erase uid).length + 1 = likes.length := by
      have := List.length_erase_of_mem hm
      have := List.length_pos_of_mem hm
      omega
    refine ⟨fun hc => absurd hm hc, fun _ => ?_, ?_, ?_, ?_⟩
    · exact ⟨by rw [h1], by rw [h1]; exact hnotin, by rw [h1]; exact hlen⟩
    · intro v
      rw [h1]
      simp only [h2]
      simp only [List.mem_append, List.mem_singleton]
      constructor
      · rintro (hv | rfl)
        · exact ((List.mem_erase_of_ne (by rintro rfl; exact hnotin hv)).mp hv)
        · exact hm
      · intro hv
        by_cases hvu : v = uid
        · exact Or.inr hvu
        · exact Or.inl ((List.mem_erase_of_ne hvu).mpr hv)
    · rw [h1]
      simp only [h2]
      simpa using hlen
    · rw [h1]
      simp only [h2]
  · have h1 := toggleLike_of_not_mem likes xp uid hm
    have hin : uid ∈ likes ++ [uid] := by simp
    have h2 := toggleLike_of_mem (likes ++ [uid]) (xp + 5) uid hin
    have herase : (likes ++ [uid]).erase uid = likes := by
      rw [List.erase_append_right _ hm]
      simp
    refine ⟨fun _ => ⟨h1, by rw [h1]; simp⟩, fun hc => absurd hc hm, ?_, ?_, ?_⟩
    · intro v
      rw [h1]
      simp only [h2, herase]
    · rw [h1]
      simp only [h2, herase]
    · rw [h1]
      simp only [h2]

/-- Witness for C4 at a concrete post: likes [a], liker xp 11, toggling
twice by user b restores the count and membership and ends 5 xp higher. -/
theorem C4_toggleLike_toggle_witness :
    (toggleLike (toggleLike ["a"] 11 "b").1 (toggleLike ["a"] 11 "b").2 "b").1.length
      = (["a"] : List String).length ∧
    (toggleLike (toggleLike ["a"] 11 "b").1 (toggleLike ["a"] 11 "b").2 "b").2
      = 11 + 5 :=
  ⟨(C4_toggleLike_toggle ["a"] 11 "b" (by decide)).2.2.2.1,
   (C4_toggleLike_toggle ["a"] 11 "b" (by decide)).2.2.2.2⟩

/-- C10: toggling preserves freedom from duplicates, so each user appears
at most once in a likes list reachable from the empty one, and the like
count (the length) equals the number of distinct liking users (the length
after deduplication). -/
theorem C10_likes_nodup_invariant (likes : List String) (xp : Nat)
    (uid : String) (hnd : likes.Nodup) :
    (toggleLike likes xp uid).1.Nodup ∧
    (toggleLike likes xp uid).1.length = (toggleLike likes xp uid).1.dedup.length := by
  have hmain : (toggleLike likes xp uid).1.Nodup := by
    by_cases hm : uid ∈ likes
    · rw [toggleLike_of_mem likes xp uid hm]
      exact hnd.erase uid
    · rw [toggleLike_of_not_mem likes xp uid hm]
      simp [List.nodup_append, hnd, List.disjoint_singleton, hm]
  exact ⟨hmain, by rw [hmain.dedup]⟩

/-- Witness for C10 at a concrete duplicate-free list. -/
theorem C10_likes_nodup_invariant_witness :
    (toggleLike ["a", "b"] 0 "b").1.Nodup ∧
    (toggleLike ["a", "b"] 0 "b").1.length
      = (toggleLike ["a", "b"] 0 "b").1.dedup.length :=
  C10_likes_nodup_invariant ["a", "b"] 0 "b" (by decide)

/-! ## Token refresh (backend, app.post /auth/refresh)

The handler body: a missing token yields 401; `jwt.verify` against the
refresh secret either yields the id claim or throws (the catch yields 403);
a missing user record or a stored refresh token different from the
presented one yields 403; otherwise new tokens are generated, the stored
refresh token is overwritten with the new one and both tokens are returned.
Signature verification and the tokens minted by `generateTokens` at the
current instant are passed in as parameters. -/

structure BackendUser where
  uid : Nat
  refreshToken : Option String
deriving DecidableEq

inductive RefreshOutcome where
  | required
  | invalid
  | ok (accessToken refreshToken : String)
deriving DecidableEq

/-- HTTP status of each refresh outcome, as in the handler. -/
def RefreshOutcome.status : RefreshOutcome → Nat
  | .required => 401
  | .invalid => 403
  | .ok _ _ => 200

def refreshHandler (findUser : Nat → Option BackendUser)
    (presented : Option String) (verify : String → Option Nat)
    (freshAccess freshRefresh : String) :
    RefreshOutcome × (Nat → Option BackendUser) :=
  match presented with
  | none => (.required, findUser)
  | some tok =>
    match verify tok with
    | none => (.invalid, findUser)
    | some uid =>
      match findUser uid with
      | none => (.invalid, findUser)
      | some u =>
        if u.refreshToken = some tok then
          (.ok freshAccess freshRefresh,
           fun i =>
             if i = uid then some { u with refreshToken := some freshRefresh }
             else findUser i)
        else (.invalid, findUser)

/-- C5: for a presented token whose signature verifies to some user id, an
absent record or a stored token different from the presented one yields 403
with the store untouched and no tokens issued; a successful refresh returns
the fresh pair and overwrites the stored refresh token with the fresh one,
so whenever the fresh token differs from the presented one the previously
issued token no longer matches the store. -/
theorem C5_refresh_rotation (findUser : Nat → Option BackendUser)
    (verify : String → Option Nat) (tok freshAccess freshRefresh : String)
    (uid : Nat) (hv : verify tok = some uid) :
    (findUser uid = none →
      refreshHandler findUser (some tok) verify freshAccess freshRefresh
        = (.invalid, findUser) ∧
      (refreshHandler findUser (some tok) verify freshAccess freshRefresh).1.status
        = 403) ∧
    (∀ u, findUser uid = some u → u.refreshToken ≠ some tok →
      refreshHandler findUser (some tok) verify freshAccess freshRefresh
        = (.invalid, findUser) ∧
      (refreshHandler findUser (some tok) verify freshAccess freshRefresh).1.status
        = 403) ∧
    (∀ u, findUser uid = some u → u.refreshToken = some tok →
      (refreshHandler findUser (some tok) verify freshAccess freshRefresh).1
        = .ok freshAccess freshRefresh ∧
      (refreshHandler findUser (some tok) verify freshAccess freshRefresh).2 uid
        = some { u with refreshToken := some freshRefresh } ∧
      (freshRefresh ≠ tok →
        ∀ u', (refreshHandler findUser (some tok) verify freshAccess freshRefresh).2 uid
          = some u' → u'.refreshToken ≠ some tok)) := by
  refine ⟨?_, ?_, ?_⟩
  · intro hnone
    simp [refreshHandler, hv, hnone, RefreshOutcome.status]
  · intro u hu hne
    simp [refreshHandler, hv, hu, hne, RefreshOutcome.status]
  · intro u hu heq
    refine ⟨?_, ?_, ?_⟩
    · simp [refreshHandler, hv, hu, heq]
    · simp [refreshHandler, hv, hu, heq]
    · intro hfr u' hu'
      simp [refreshHandler, hv, hu, heq] at hu'
      rw [← hu']
      intro hc
      exact hfr (Option.some.inj hc)

/-- Witness for C5 at concrete data: user 1 stores the token rt, presents
rt, and receives a fresh pair while the store now holds rt2. -/
theorem C5_refresh_rotation_witness :
    (refreshHandler (fun i => if i = 1 then some ⟨1, some "rt"⟩ else none)
        (some "rt") (fun t => if t = "rt" then some 1 else none) "a2" "rt2").1
      = .ok "a2" "rt2" ∧
    (refreshHandler (fun i => if i = 1 then some ⟨1, some "rt"⟩ else none)
        (some "rt") (fun t => if t = "rt" then some 1 else none) "a2" "rt2").2 1
      = some ⟨1, some "rt2"⟩ :=
  ⟨((C5_refresh_rotation (fun i => if i = 1 then some ⟨1, some "rt"⟩ else none)
      (fun t => if t = "rt" then some 1 else none) "rt" "a2" "rt2" 1
      (by simp)).2.2 ⟨1, some "rt"⟩ (by simp) rfl).1,
   ((C5_refresh_rotation (fun i => if i = 1 then some ⟨1, some "rt"⟩ else none)
      (fun t => if t = "rt" then some 1 else none) "rt" "a2" "rt2" 1
      (by simp)).2.2 ⟨1, some "rt"⟩ (by simp) rfl).2.1⟩

/-! ## Post listing with pagination (backend, app.get /posts)

The handler sorts by createdAt descending, skips `(page - 1) * limit`
documents, takes `limit` of them, and reports `total` and
`pages = Math.ceil(total / limit)`. -/

structure StoredPost where
  pid : String
  content : String
  createdAt : Nat
deriving DecidableEq

/-- Ordering used by `sort({ createdAt: -1 })`: a comes no later than b in
the output when its createdAt is at least that of b. -/
def newerEq (a b : StoredPost) : Prop := b.createdAt ≤ a.createdAt

instance : DecidableRel newerEq :=
  fun a b => inferInstanceAs (Decidable (b.createdAt ≤ a.createdAt))

instance : IsTotal StoredPost newerEq :=
  ⟨fun a b => Nat.le_total b.createdAt a.createdAt⟩

instance : IsTrans StoredPost newerEq :=
  ⟨fun _ _ _ hab hbc => le_trans hbc hab⟩

def sortNewestFirst (l : List StoredPost) : List StoredPost :=
  List.insertionSort newerEq l

structure PostsPage where
  posts : List StoredPost
  total : Nat
  page : Nat
  pages : Nat
deriving DecidableEq

/-- Math.ceil(total / limit) on natural numbers, for limit at least 1. -/
def jsCeilDiv (total limit : Nat) : Nat := (total + limit - 1) / limit

def listPosts (store : List StoredPost) (page limit : Nat) : PostsPage :=
  { posts := ((sortNewestFirst store).drop ((page - 1) * limit)).take limit,
    total := store.length,
    page := page,
    pages := jsCeilDiv store.length limit }

lemma jsCeilDiv_le_iff (t k m : Nat) (hk : 1 ≤ k) :
    jsCeilDiv t k ≤ m ↔ t ≤ k * m := by
  unfold jsCeilDiv
  rw [Nat.div_le_iff_le_mul_add_pred hk]
  omega

/-- C6: listing posts returns the slice of the newest-first ordering that
belongs to the requested page, drawn from a sorted permutation of the
store, together with the total count and a page count equal to the ceiling
of total over pageSize (stated as the least number of pages covering the
total); with 25 posts, page 2 and limit 10 the result has 10 posts,
total 25 and pages 3. -/
theorem C6_listPosts_pagination (store : List StoredPost) (page limit : Nat)
    (hp : 1 ≤ page) (hl : 1 ≤ limit) :
    (listPosts store page limit).total = store.length ∧
    (listPosts store page limit).posts
      = ((sortNewestFirst store).drop ((page - 1) * limit)).take limit ∧
    List.Sorted newerEq (sortNewestFirst store) ∧
    (sortNewestFirst store).Perm store ∧
    List.Sorted newerEq (listPosts store page limit).posts ∧
    (∀ p ∈ (listPosts store page limit).posts, p ∈ store) ∧
    (listPosts store page limit).posts.length ≤ limit ∧
    store.length ≤ limit * (listPosts store page limit).pages ∧
    (∀ m, store.length ≤ limit * m → (listPosts store page limit).pages ≤ m) ∧
    (store.length = 25 → page = 2 → limit = 10 →
      (listPosts store page limit).posts.length = 10 ∧
      (listPosts store page limit).total = 25 ∧
      (listPosts store page limit).pages = 3) := by
  have hsorted : List.Sorted newerEq (sortNewestFirst store) :=
    List.sorted_insertionSort newerEq store
  have hperm : (sortNewestFirst store).Perm store :=
    List.perm_insertionSort newerEq store
  have hsub :
      (((sortNewestFirst store).drop ((page - 1) * limit)).take limit).Sublist
        (sortNewestFirst store) :=
    (List.take_sublist _ _).trans (List.drop_sublist _ _)
  refine ⟨rfl, rfl, hsorted, hperm, List.Pairwise.sublist hsub hsorted, ?_, ?_, ?_, ?_, ?_⟩
  · intro p hpp
    exact hperm.mem_iff.mp (hsub.subset hpp)
  · simp only [listPosts]
    exact List.length_take_le limit _
  · exact (jsCeilDiv_le_iff store.length limit _ hl).mp le_rfl
  · intro m hm
    exact (jsCeilDiv_le_iff store.length limit m hl).mpr hm
  · intro h25 hp2 hl10
    subst hp2 hl10
    have hlen : (sortNewestFirst store).length = 25 := by
      rw [hperm.length_eq, h25]
    refine ⟨?_, by simpa [listPosts] using h25, ?_⟩
    · simp [listPosts, List.length_take, List.length_drop, hlen]
    · simp [listPosts, jsCeilDiv, h25]

/-- Concrete 25-post store used by the C6 witness. -/
def store25 : List StoredPost :=
  (List.range 25).map (fun i => { pid := "", content := "", createdAt := i })

/-- Witness for C6 on a concrete 25-post store at page 2, limit 10. -/
theorem C6_listPosts_pagination_witness :
    (listPosts store25 2 10).posts.length = 10 ∧
    (listPosts store25 2 10).total = 25 ∧
    (listPosts store25 2 10).pages = 3 :=
  (C6_listPosts_pagination store25 2 10 (by norm_num) (by norm_num)).2.2.2.2.2.2.2.2.2
    (by simp [store25]) rfl rfl

/-! ## Registration

Two handlers create users: app.post /auth/register in the Express backend
(mongoose schema defaults, 8-character password minimum, 409 on a duplicate
username) and the /register handler of the integrated mock server in
App.tsx (explicit literal record, 6-character password minimum, 400 on a
duplicate username). Both are embedded; `!username || !password` of
JavaScript is the emptiness test on the given strings, bcrypt.hash and the
Date.now() derived id and token are passed in as parameters. -/

structure DbUser where
  username : String
  passwordHash : String
  level : Nat
  xp : Nat
  coins : Nat
  streak : Nat
  inventory : List String
  title : String
deriving DecidableEq

/-- Record built by `new User({ username, password })` under the schema
defaults: level 1, xp 0, coins 100, streak 0, empty inventory, title
Newbie. -/
def newDbUser (username passwordHash : String) : DbUser :=
  { username := username, passwordHash := passwordHash,
    level := 1, xp := 0, coins := 100, streak := 0,
    inventory := [], title := "Newbie" }

inductive RegisterOutcome where
  | badRequest (msg : String)
  | conflict (msg : String)
  | created (u : DbUser)
deriving DecidableEq

/-- HTTP status of each backend registration outcome. -/
def RegisterOutcome.status : RegisterOutcome → Nat
  | .badRequest _ => 400
  | .conflict _ => 409
  | .created _ => 201

def registerBackend (store : List DbUser) (username pw hash : String) :
    RegisterOutcome × List DbUser :=
  if username = "" ∨ pw = "" then
    (.badRequest "Username and password are required", store)
  else if pw.length < 8 then
    (.badRequest "Password must be at least 8 characters", store)
  else if store.any (fun u => u.username = username) then
    (.conflict "Username already exists", store)
  else
    (.created (newDbUser username hash), store ++ [newDbUser username hash])

structure MockRegUser where
  uid : String
  username : String
  level : Nat
  xp : Nat
  coins : Nat
  streak : Nat
  title : String
  inventory : List String
deriving DecidableEq

/-- Record literal built by the mock /register handler. -/
def mockNewUser (uid username : String) : MockRegUser :=
  { uid := uid, username := username, level := 1, xp := 0, coins := 100,
    streak := 0, title := "Newbie", inventory := ["Starter Pack"] }

inductive MockRegOutcome where
  | badRequest (msg : String)
  | created (accessToken : String) (u : MockRegUser)
deriving DecidableEq

/-- HTTP status of each mock registration outcome. -/
def MockRegOutcome.status : MockRegOutcome → Nat
  | .badRequest _ => 400
  | .created _ _ => 201

def registerMock (store : List MockRegUser) (username pw uid token : String) :
    MockRegOutcome × List MockRegUser :=
  if username = "" ∨ pw = "" then
    (.badRequest "Username and password required", store)
  else if pw.length < 6 then
    (.badRequest "Password must be at least 6 characters", store)
  else if store.any (fun u => u.username = username) then
    (.badRequest "Username already exists", store)
  else
    (.created token (mockNewUser uid username), store ++ [mockNewUser uid username])

/-- Concrete mock user stored ahead of the C7 counterexample request. -/
def demoMockUser : MockRegUser := mockNewUser "id0" "alice"

/-- C7 counterexample: registering the already-taken username alice with a
valid password against the mock server fails with status 400, not 409, so
the claim that a duplicate registration always fails with 409 is false. -/
theorem C7_counterexample :
    (registerMock [demoMockUser] "alice" "password1" "id1" "tok").1.status = 400 ∧
    (registerMock [demoMockUser] "alice" "password1" "id1" "tok").1.status ≠ 409 ∧
    (registerMock [demoMockUser] "alice" "password1" "id1" "tok").2
      = [demoMockUser] := by
  refine ⟨?_, ?_, ?_⟩ <;> decide

/-- C7 amended: a registration request with non-empty fields, an acceptable
password and a username equal to that of a stored user creates no new
record; the Express backend answers 409, while the mock server answers 400
with the message Username already exists. -/
theorem C7_duplicate_username (username : String) (hu : username ≠ "") :
    (∀ (store : List DbUser) (pw hash : String), pw ≠ "" → ¬ pw.length < 8 →
      (∃ u ∈ store, u.username = username) →
      registerBackend store username pw hash
        = (.conflict "Username already exists", store) ∧
      (registerBackend store username pw hash).1.status = 409) ∧
    (∀ (store : List MockRegUser) (pw uid token : String), pw ≠ "" →
      ¬ pw.length < 6 →
      (∃ u ∈ store, u.username = username) →
      registerMock store username pw uid token
        = (.badRequest "Username already exists", store) ∧
      (registerMock store username pw uid token).1.status = 400) := by
  constructor
  · intro store pw hash hp hlen hdup
    have hany : store.any (fun u => u.username = username) = true := by
      simpa [List.any_eq_true] using hdup
    simp [registerBackend, hu, hp, hlen, hany, RegisterOutcome.status]
  · intro store pw uid token hp hlen hdup
    have hany : store.any (fun u => u.username = username) = true := by
      simpa [List.any_eq_true] using hdup
    simp [registerMock, hu, hp, hlen, hany, MockRegOutcome.status]

/-- Witness for the amended C7 at concrete stores holding the username. -/
theorem C7_duplicate_username_witness :
    registerBackend [newDbUser "alice" "h"] "alice" "password1" "h2"
      = (.conflict "Username already exists", [newDbUser "alice" "h"]) ∧
    registerMock [demoMockUser] "alice" "password1" "id1" "tok"
      = (.badRequest "Username already exists", [demoMockUser]) :=
  ⟨((C7_duplicate_username "alice" (by decide)).1 [newDbUser "alice" "h"]
      "password1" "h2" (by decide) (by decide)
      ⟨newDbUser "alice" "h", by simp, rfl⟩).1,
   ((C7_duplicate_username "alice" (by decide)).2 [demoMockUser]
      "password1" "id1" "tok" (by decide) (by decide)
      ⟨demoMockUser, by simp, rfl⟩).1⟩

/-- C8 counterexample: the mock server accepts the 7-character password
1234567 and creates a record, although the claim requires every password
shorter than 8 characters to be rejected with 400 and no record. -/
theorem C8_counterexample :
    ("1234567" : String).length < 8 ∧
    (registerMock [] "bob" "1234567" "id1" "tok").1.status = 201 ∧
    (registerMock [] "bob" "1234567" "id1" "tok").2
      = [mockNewUser "id1" "bob"] := by
  refine ⟨?_, ?_, ?_⟩ <;> decide

/-- C8 amended: a registration whose password is shorter than 6 characters
fails with 400 on both servers and creates no record; the Express backend
also rejects 6- and 7-character passwords with 400 and no record, while the
mock server only enforces a 6-character minimum. -/
theorem C8_short_password (username pw : String) (hu : username ≠ "")
    (hp : pw ≠ "") :
    (∀ (store : List DbUser) (hash : String), pw.length < 8 →
      registerBackend store username pw hash
        = (.badRequest "Password must be at least 8 characters", store) ∧
      (registerBackend store username pw hash).1.status = 400) ∧
    (∀ (store : List MockRegUser) (uid token : String), pw.length < 6 →
      registerMock store username pw uid token
        = (.badRequest "Password must be at least 6 characters", store) ∧
      (registerMock store username pw uid token).1.status = 400) := by
  constructor
  · intro store hash hlen
    simp [registerBackend, hu, hp, hlen, RegisterOutcome.status]
  · intro store uid token hlen
    simp [registerMock, hu, hp, hlen, MockRegOutcome.status]

/-- Witness for the amended C8 with a 5-character password on both servers
and a 7-character password on the backend. -/
theorem C8_short_password_witness :
    registerBackend [] "bob" "1234567" "h"
      = (.badRequest "Password must be at least 8 characters", []) ∧
    registerMock [] "bob" "12345" "id1" "tok"
      = (.badRequest "Password must be at least 6 characters", []) :=
  ⟨((C8_short_password "bob" "1234567" (by decide) (by decide)).1 [] "h"
      (by decide)).1,
   ((C8_short_password "bob" "12345" (by decide) (by decide)).2 [] "id1" "tok"
      (by decide)).1⟩

/-- C9: every valid registration (non-empty fields, acceptable password,
unused username) creates a record with level 1, xp 0, coins 100, streak 0
and title Newbie, on the Express backend as well as on the mock server. -/
theorem C9_registration_defaults (username pw : String) (hu : username ≠ "")
    (hp : pw ≠ "") :
    (∀ (store : List DbUser) (hash : String), ¬ pw.length < 8 →
      (∀ u ∈ store, u.username ≠ username) →
      registerBackend store username pw hash
        = (.created (newDbUser username hash),
           store ++ [newDbUser username hash]) ∧
      (newDbUser username hash).level = 1 ∧
      (newDbUser username hash).xp = 0 ∧
      (newDbUser username hash).coins = 100 ∧
      (newDbUser username hash).streak = 0 ∧
      (newDbUser username hash).title = "Newbie") ∧
    (∀ (store : List MockRegUser) (uid token : String), ¬ pw.length < 6 →
      (∀ u ∈ store, u.username ≠ username) →
      registerMock store username pw uid token
        = (.created token (mockNewUser uid username),
           store ++ [mockNewUser uid username]) ∧
      (mockNewUser uid username).level = 1 ∧
      (mockNewUser uid username).xp = 0 ∧
      (mockNewUser uid username).coins = 100 ∧
      (mockNewUser uid username).streak = 0 ∧
      (mockNewUser uid username).title = "Newbie") := by
  constructor
  · intro store hash hlen hfresh
    have hany : ¬ store.any (fun u => u.username = username) = true := by
      simp only [List.any_eq_true, not_exists]
      intro u
      simp only [decide_eq_true_eq, not_and]
      exact fun hm => hfresh u hm
    refine ⟨?_, rfl, rfl, rfl, rfl, rfl⟩
    simp [registerBackend, hu, hp, hlen, hany]
  · intro store uid token hlen hfresh
    have hany : ¬ store.any (fun u => u.username = username) = true := by
      simp only [List.any_eq_true, not_exists]
      intro u
      simp only [decide_eq_true_eq, not_and]
      exact fun hm => hfresh u hm
    refine ⟨?_, rfl, rfl, rfl, rfl, rfl⟩
    simp [registerMock, hu, hp, hlen, hany]

/-- Witness for C9: valid registrations on empty stores of both servers. -/
theorem C9_registration_defaults_witness :
    registerBackend [] "carol" "password1" "h"
      = (.created (newDbUser "carol" "h"), [newDbUser "carol" "h"]) ∧
    registerMock [] "carol" "password1" "id1" "tok"
      = (.created "tok" (mockNewUser "id1" "carol"), [mockNewUser "id1" "carol"]) :=
  ⟨((C9_registration_defaults "carol" "password1" (by decide) (by decide)).1 []
      "h" (by decide) (by simp)).1,
   ((C9_registration_defaults "carol" "password1" (by decide) (by decide)).2 []
      "id1" "tok" (by decide) (by simp)).1⟩

end SocialQuest
